import Mathlib

/-!
Verification of the bridgarr/linkarr debrid-link lifecycle engine.

Shallow embedding of the Python sources:
* `bridgarr-backend/app/services/content_processor.py` (torrent selector),
* `bridgarr-backend/app/services/debrid/{base,alldebrid,premiumize,debrid_link}.py`
  (status normalization and acquire-and-poll loops),
* `linkarr-backend/app/services/rd_client.py` (Real-Debrid acquire-and-poll loop),
* `bridgarr-backend/app/services/link_cache_manager.py` (link cache store).

Python integers are modelled as `Int`, optional values as `Option`, raised
exceptions as `Except`, and the database session as explicit state passing on
a `Store` value.  Provider HTTP calls are modelled as response oracles passed
in as function arguments.
-/

namespace Bridgarr

/-- `TorrentResult` dataclass from `linkarr-backend/app/services/scrapers/base.py`:
a torrent search result.  `size` is in bytes; `seeders`, `quality` and `source`
are optional. -/
structure TorrentResult where
  title : String
  info_hash : String
  size : Int
  seeders : Option Int := none
  quality : Option String := none
  source : Option String := none
  deriving DecidableEq, Repr

/-- The `quality_scores` dict lookup with default 0 inside
`_select_best_torrent.quality_score` (`content_processor.py` lines 170-177):
`{"2160p": 4, "1080p": 3, "720p": 2, "480p": 1}.get(torrent.quality, 0)`.
A missing (`None`) quality is not a key of the dict, so it scores 0. -/
def quality_rank (q : Option String) : Nat :=
  match q with
  | some "2160p" => 4
  | some "1080p" => 3
  | some "720p" => 2
  | some "480p" => 1
  | _ => 0

/-- `seeder_score = torrent.seeders if torrent.seeders else 0`
(`content_processor.py` line 178).  Python truthiness: both `None` and `0`
yield 0. -/
def seeder_score (s : Option Int) : Int :=
  match s with
  | none => 0
  | some n => if n ≠ 0 then n else 0

/-- The ranking key `(q_score, seeder_score)` returned by `quality_score` in
`_select_best_torrent`. -/
def selKey (t : TorrentResult) : Nat × Int :=
  (quality_rank t.quality, seeder_score t.seeders)

/-- Lexicographic `≤` on ranking keys: Python tuple comparison. -/
def keyLe (p q : Nat × Int) : Prop :=
  p.1 < q.1 ∨ (p.1 = q.1 ∧ p.2 ≤ q.2)

instance : DecidableRel keyLe := fun p q => by unfold keyLe; infer_instance

theorem keyLe_refl (p : Nat × Int) : keyLe p p := by unfold keyLe; omega

theorem keyLe_trans {p q r : Nat × Int} (h1 : keyLe p q) (h2 : keyLe q r) :
    keyLe p r := by
  unfold keyLe at *; omega

theorem keyLe_total (p q : Nat × Int) : keyLe p q ∨ keyLe q p := by
  unfold keyLe; omega

/-- `a` may be placed before `b` in the descending sort: `selKey b ≤ selKey a`.
`filtered.sort(key=quality_score, reverse=True)` (`content_processor.py` line
181) is a stable descending sort; a stable sort's output is uniquely
determined by the comparator and the input order, so `List.insertionSort`
with this relation produces exactly the list Python's `list.sort` produces. -/
def selBefore (a b : TorrentResult) : Prop := keyLe (selKey b) (selKey a)

instance : DecidableRel selBefore := fun a b => by unfold selBefore; infer_instance

instance : IsTotal TorrentResult selBefore :=
  ⟨fun a b => keyLe_total (selKey b) (selKey a)⟩

instance : IsTrans TorrentResult selBefore :=
  ⟨fun _ _ _ h1 h2 => keyLe_trans h2 h1⟩

/-- `MIN_SIZE = 700 * 1024 * 1024` (700 MB), `content_processor.py` line 157. -/
def MIN_SIZE : Int := 700 * 1024 * 1024

/-- `MAX_SIZE = 15 * 1024 * 1024 * 1024` (15 GB), `content_processor.py` line 158. -/
def MAX_SIZE : Int := 15 * 1024 * 1024 * 1024

/-- The size filter `MIN_SIZE <= t.size <= MAX_SIZE` of `_select_best_torrent`. -/
def sizeInRange (t : TorrentResult) : Bool :=
  decide (MIN_SIZE ≤ t.size) && decide (t.size ≤ MAX_SIZE)

/-- `_select_best_torrent` from `content_processor.py` lines 144-183, together
with the post-call state of the caller's list.  When the size filter is empty
the code rebinds `filtered = torrents` — the *same* list object — and
`filtered.sort(...)` then reorders the caller's list in place; when the filter
is non-empty, `filtered` is a fresh list and the input is untouched.  Returns
`(filtered[0] if filtered else None, input-list-after-the-call)`. -/
def select_best_torrent_full (torrents : List TorrentResult) :
    Option TorrentResult × List TorrentResult :=
  if torrents = [] then (none, torrents)
  else
    let filtered := torrents.filter sizeInRange
    if filtered = [] then
      let sorted := List.insertionSort selBefore torrents
      (sorted.head?, sorted)
    else
      let sorted := List.insertionSort selBefore filtered
      (sorted.head?, torrents)

/-- The return value of `_select_best_torrent`. -/
def select_best_torrent (torrents : List TorrentResult) : Option TorrentResult :=
  (select_best_torrent_full torrents).1

/-- The state of the caller's list after `_select_best_torrent` returns. -/
def select_best_torrent_post (torrents : List TorrentResult) : List TorrentResult :=
  (select_best_torrent_full torrents).2

/-- The pool the selector actually ranks: the size-filtered list, or the whole
input when the filter is empty. -/
def selectionPool (torrents : List TorrentResult) : List TorrentResult :=
  if torrents.filter sizeInRange = [] then torrents else torrents.filter sizeInRange

theorem insertionSort_head_max (l : List TorrentResult) (t : TorrentResult)
    (h : (List.insertionSort selBefore l).head? = some t) :
    t ∈ l ∧ ∀ u ∈ l, keyLe (selKey u) (selKey t) := by
  have hperm := List.perm_insertionSort selBefore l
  have hsorted := List.sorted_insertionSort selBefore l
  obtain ⟨rest, hrest⟩ : ∃ rest, List.insertionSort selBefore l = t :: rest := by
    cases hs : List.insertionSort selBefore l with
    | nil => rw [hs] at h; simp at h
    | cons a as => rw [hs] at h; simp at h; exact ⟨as, by rw [h]⟩
  rw [hrest] at hperm hsorted
  constructor
  · exact hperm.mem_iff.mp (List.mem_cons_self t rest)
  · intro u hu
    have hu' : u ∈ t :: rest := hperm.mem_iff.mpr hu
    rcases List.mem_cons.mp hu' with h1 | h2
    · subst h1; exact keyLe_refl _
    · exact List.rel_of_sorted_cons hsorted u h2

/-- C1: `_select_best_torrent` returns `None` iff the candidate list is empty;
otherwise it restricts to candidates with size in `[700*1024*1024,
15*1024^3]`, falls back to the whole list when that restriction is empty, and
returns an element of the resulting pool maximizing the tuple
`(quality_rank, seeders)`, where the rank maps `2160p`/`1080p`/`720p`/`480p`
to 4/3/2/1, anything else to 0, and missing seeders count as 0. -/
theorem select_best_torrent_spec (ts : List TorrentResult) :
    (select_best_torrent ts = none ↔ ts = [])
    ∧ (∀ t, select_best_torrent ts = some t →
        t ∈ selectionPool ts ∧ ∀ u ∈ selectionPool ts, keyLe (selKey u) (selKey t))
    ∧ (quality_rank (some "2160p") = 4 ∧ quality_rank (some "1080p") = 3
        ∧ quality_rank (some "720p") = 2 ∧ quality_rank (some "480p") = 1
        ∧ quality_rank (some "other") = 0 ∧ quality_rank none = 0
        ∧ seeder_score none = 0) := by
  refine ⟨?_, ?_, by decide⟩
  · constructor
    · intro h
      by_contra hne
      unfold select_best_torrent select_best_torrent_full at h
      rw [if_neg hne] at h
      by_cases hf : ts.filter sizeInRange = []
      · simp only [hf, if_pos rfl] at h
        have : List.insertionSort selBefore ts = [] := List.head?_eq_none_iff.mp h
        exact hne ((List.perm_insertionSort selBefore ts).symm.trans (this ▸ List.Perm.refl [])).eq_nil
      · rw [if_neg hf] at h
        have : List.insertionSort selBefore (ts.filter sizeInRange) = [] :=
          List.head?_eq_none_iff.mp h
        exact hf ((List.perm_insertionSort selBefore (ts.filter sizeInRange)).symm.trans
          (this ▸ List.Perm.refl [])).eq_nil
    · intro h; subst h; rfl
  · intro t ht
    unfold select_best_torrent select_best_torrent_full at ht
    unfold selectionPool
    by_cases hnil : ts = []
    · subst hnil; simp at ht
    · rw [if_neg hnil] at ht
      by_cases hf : ts.filter sizeInRange = []
      · simp only [hf, if_pos rfl] at ht ⊢
        exact insertionSort_head_max ts t ht
      · rw [if_neg hf] at ht ⊢
        exact insertionSort_head_max (ts.filter sizeInRange) t ht

/-- The spec scenario: 500 MB / 2 GB / 20 GB candidates with qualities
`720p`/`1080p`/`480p` and seeders 5/1/50. -/
def scenarioSmall : TorrentResult :=
  { title := "small", info_hash := "h1", size := 500 * 1024 * 1024,
    seeders := some 5, quality := some "720p" }

def scenarioMid : TorrentResult :=
  { title := "mid", info_hash := "h2", size := 2 * 1024 * 1024 * 1024,
    seeders := some 1, quality := some "1080p" }

def scenarioBig : TorrentResult :=
  { title := "big", info_hash := "h3", size := 20 * 1024 * 1024 * 1024,
    seeders := some 50, quality := some "480p" }

/-- Witness for C1: on the spec's concrete scenario the selector picks the
in-range 1080p candidate, which is a maximal element of the pool. -/
theorem select_best_torrent_spec_witness :
    scenarioMid ∈ selectionPool [scenarioSmall, scenarioMid, scenarioBig]
    ∧ ∀ u ∈ selectionPool [scenarioSmall, scenarioMid, scenarioBig],
        keyLe (selKey u) (selKey scenarioMid) :=
  (select_best_torrent_spec [scenarioSmall, scenarioMid, scenarioBig]).2.1
    scenarioMid (by decide)

/-- Two candidates, both outside the 700 MB – 15 GB size range, in
non-descending rank order: the fallback path sorts the caller's list in
place. -/
def exLow : TorrentResult := { title := "low", info_hash := "aa", size := 0 }

def exHigh : TorrentResult :=
  { title := "high", info_hash := "bb", size := 1, quality := some "1080p" }

/-- Counterexample for C9: `_select_best_torrent` is not free of side effects
on its input.  With both candidates outside the size range, the fallback
`filtered = torrents` aliases the input list and `filtered.sort(...)` reorders
it in place: after the call the list is `[exHigh, exLow]`, not the original
`[exLow, exHigh]`. -/
theorem selector_mutation_counterexample :
    select_best_torrent_post [exLow, exHigh] ≠ [exLow, exHigh] := by decide

/-- C9 amended: the selector leaves the input list unchanged whenever at least
one candidate passes the size filter; when no candidate passes, the fallback
aliases the input and the in-place sort reorders it into the stable descending
ranking order (a permutation of the input, sorted by the ranking relation).
The model is a pure function of its input, so the return value is
deterministic. -/
theorem selector_mutation_amended (ts : List TorrentResult) :
    (ts.filter sizeInRange ≠ [] → select_best_torrent_post ts = ts)
    ∧ (ts.filter sizeInRange = [] →
        (select_best_torrent_post ts).Perm ts
        ∧ List.Sorted selBefore (select_best_torrent_post ts)) := by
  constructor
  · intro hf
    unfold select_best_torrent_post select_best_torrent_full
    by_cases hnil : ts = []
    · subst hnil; rfl
    · rw [if_neg hnil, if_neg hf]
  · intro hf
    unfold select_best_torrent_post select_best_torrent_full
    by_cases hnil : ts = []
    · subst hnil; exact ⟨List.Perm.refl _, List.sorted_nil⟩
    · rw [if_neg hnil]
      simp only [hf, if_pos rfl]
      exact ⟨List.perm_insertionSort selBefore ts,
        List.sorted_insertionSort selBefore ts⟩

/-- Witness for C9 amended: with an in-range candidate the input survives the
call unchanged; with none in range the post-call list is a sorted permutation
of the input. -/
theorem selector_mutation_amended_witness :
    select_best_torrent_post [scenarioSmall, scenarioMid] = [scenarioSmall, scenarioMid]
    ∧ ((select_best_torrent_post [exLow, exHigh]).Perm [exLow, exHigh]
        ∧ List.Sorted selBefore (select_best_torrent_post [exLow, exHigh])) :=
  ⟨(selector_mutation_amended [scenarioSmall, scenarioMid]).1 (by decide),
   (selector_mutation_amended [exLow, exHigh]).2 (by decide)⟩

/-! ### Status normalization (`debrid/base.py` and the three adapters) -/

/-- `TorrentStatus` enum from `debrid/base.py`: the seven normalized statuses. -/
inductive TorrentStatus where
  | queued
  | downloading
  | processing
  | ready
  | error
  | expired
  | dead
  deriving DecidableEq, Repr

/-- A Python value passed as `provider_status`: the adapters receive either a
numeric status code or a status string. -/
inductive ProviderStatusValue where
  | int (n : Int)
  | str (s : String)
  deriving DecidableEq, Repr

/-- The Python exception raised by `provider_status.lower()` when
`provider_status` is an `int` (ints have no `lower` method). -/
inductive PyError where
  | attributeError
  deriving DecidableEq, Repr

/-- Python `str.lower()` on the ASCII status vocabulary, modelled
character-by-character (structural recursion, unlike `String.map`). -/
def pyLower (s : String) : String := String.mk (s.data.map Char.toLower)

/-- The string-keyed `status_map` dict lookup (with default `ERROR`) of
`AllDebridClient.normalize_torrent_status` (`alldebrid.py` lines 345-354),
applied to the already-lowercased status. -/
def alldebrid_str_map (u : String) : TorrentStatus :=
  if u = "queued" then .queued
  else if u = "processing" then .downloading
  else if u = "compressing" then .processing
  else if u = "uploading" then .processing
  else if u = "ready" then .ready
  else if u = "error" then .error
  else if u = "expired" then .expired
  else .error

/-- `AllDebridClient.normalize_torrent_status` (`alldebrid.py` lines 321-354):
`isinstance(provider_status, int)` selects the `status_code_map` dict with
default `ERROR`; otherwise the string map on `provider_status.lower()`. -/
def alldebrid_normalize_torrent_status (v : ProviderStatusValue) : TorrentStatus :=
  match v with
  | .int n =>
    if n = 0 then .queued
    else if n = 1 then .downloading
    else if n = 2 then .processing
    else if n = 3 then .processing
    else if n = 4 then .ready
    else if n = 5 then .error
    else if n = 6 then .expired
    else .error
  | .str s => alldebrid_str_map (pyLower s)

/-- The `status_map` dict lookup (with default `ERROR`) of
`PremiumizeClient.normalize_torrent_status` (`premiumize.py` lines 370-381),
applied to the already-lowercased status. -/
def premiumize_str_map (u : String) : TorrentStatus :=
  if u = "waiting" then .queued
  else if u = "queued" then .queued
  else if u = "running" then .downloading
  else if u = "finishing" then .processing
  else if u = "finished" then .ready
  else if u = "error" then .error
  else if u = "banned" then .error
  else if u = "timeout" then .error
  else if u = "seeding" then .ready
  else .error

/-- `PremiumizeClient.normalize_torrent_status` (`premiumize.py` lines
360-381): a single string map on `provider_status.lower()` with default
`ERROR`.  There is no `isinstance` branch: calling it with an `int` executes
`provider_status.lower()` and raises `AttributeError`. -/
def premiumize_normalize_torrent_status (v : ProviderStatusValue) :
    Except PyError TorrentStatus :=
  match v with
  | .int _ => .error .attributeError
  | .str s => .ok (premiumize_str_map (pyLower s))

/-- The string-keyed `status_map` dict lookup (with default `ERROR`) of
`DebridLinkClient.normalize_torrent_status` (`debrid_link.py` lines 344-351),
applied to the already-lowercased status. -/
def debrid_link_str_map (u : String) : TorrentStatus :=
  if u = "waiting" then .queued
  else if u = "downloading" then .downloading
  else if u = "downloaded" then .ready
  else if u = "error" then .error
  else if u = "virus" then .error
  else .error

/-- `DebridLinkClient.normalize_torrent_status` (`debrid_link.py` lines
322-351): `isinstance(provider_status, int)` selects the code map 0-4 with
default `ERROR`; otherwise the string map on `provider_status.lower()`. -/
def debrid_link_normalize_torrent_status (v : ProviderStatusValue) : TorrentStatus :=
  match v with
  | .int n =>
    if n = 0 then .queued
    else if n = 1 then .downloading
    else if n = 2 then .ready
    else if n = 3 then .error
    else if n = 4 then .error
    else .error
  | .str s => debrid_link_str_map (pyLower s)

/-- AllDebrid's known status vocabulary: codes 0-6 and the keys of its string
map (after lowercasing). -/
def alldebridKnown (v : ProviderStatusValue) : Bool :=
  match v with
  | .int n => decide (0 ≤ n ∧ n ≤ 6)
  | .str s =>
    pyLower s ∈ ["queued", "processing", "compressing", "uploading", "ready",
      "error", "expired"]

/-- Debrid-Link's known status vocabulary: codes 0-4 and the keys of its
string map (after lowercasing). -/
def debridLinkKnown (v : ProviderStatusValue) : Bool :=
  match v with
  | .int n => decide (0 ≤ n ∧ n ≤ 4)
  | .str s => pyLower s ∈ ["waiting", "downloading", "downloaded", "error", "virus"]

/-- Premiumize's known status vocabulary: only strings, the keys of its map
(after lowercasing). -/
def premiumizeKnown (s : String) : Bool :=
  pyLower s ∈ ["waiting", "queued", "running", "finishing", "finished", "error",
    "banned", "timeout", "seeding"]

theorem alldebrid_str_map_default (u : String)
    (h : u ∉ ["queued", "processing", "compressing", "uploading", "ready",
      "error", "expired"]) :
    alldebrid_str_map u = .error := by
  simp only [List.mem_cons, List.not_mem_nil, or_false, not_or] at h
  unfold alldebrid_str_map
  split_ifs <;> simp_all

theorem premiumize_str_map_default (u : String)
    (h : u ∉ ["waiting", "queued", "running", "finishing", "finished", "error",
      "banned", "timeout", "seeding"]) :
    premiumize_str_map u = .error := by
  simp only [List.mem_cons, List.not_mem_nil, or_false, not_or] at h
  unfold premiumize_str_map
  split_ifs <;> simp_all

theorem debrid_link_str_map_default (u : String)
    (h : u ∉ ["waiting", "downloading", "downloaded", "error", "virus"]) :
    debrid_link_str_map u = .error := by
  simp only [List.mem_cons, List.not_mem_nil, or_false, not_or] at h
  unfold debrid_link_str_map
  split_ifs <;> simp_all

/-- Counterexample for C2: numeric status codes passed to
`PremiumizeClient.normalize_torrent_status` do not normalize to `Error` — the
call raises `AttributeError` (ints have no `.lower()`), so the result is not a
normalized status at all. -/
theorem premiumize_normalize_int_counterexample :
    premiumize_normalize_torrent_status (.int 0) = .error .attributeError
    ∧ ∀ t : TorrentStatus, premiumize_normalize_torrent_status (.int 0) ≠ .ok t := by
  exact ⟨rfl, fun t h => by cases h⟩

/-- C2 amended: AllDebrid and Debrid-Link normalize every numeric or string
status to one of the seven normalized statuses, with every value outside
their known vocabulary mapped to `Error`; Premiumize does the same for every
*string* status, but its normalizer handles no numeric branch: an `int`
argument raises `AttributeError` instead of normalizing to `Error`. -/
theorem normalize_torrent_status_amended :
    (∀ v, alldebridKnown v = false → alldebrid_normalize_torrent_status v = .error)
    ∧ (∀ v, debridLinkKnown v = false → debrid_link_normalize_torrent_status v = .error)
    ∧ (∀ s : String, premiumizeKnown s = false →
        premiumize_normalize_torrent_status (.str s) = .ok .error)
    ∧ (∀ s : String, ∃ t : TorrentStatus,
        premiumize_normalize_torrent_status (.str s) = .ok t)
    ∧ (∀ n : Int, premiumize_normalize_torrent_status (.int n) = .error .attributeError) := by
  refine ⟨?_, ?_, ?_, fun s => ⟨_, rfl⟩, fun n => rfl⟩
  · intro v hv
    cases v with
    | int n =>
      simp only [alldebridKnown, decide_eq_false_iff_not, not_and, not_le] at hv
      simp only [alldebrid_normalize_torrent_status]
      split_ifs <;> first | rfl | omega
    | str s =>
      simp only [alldebridKnown, decide_eq_false_iff_not] at hv
      exact alldebrid_str_map_default (pyLower s) hv
  · intro v hv
    cases v with
    | int n =>
      simp only [debridLinkKnown, decide_eq_false_iff_not, not_and, not_le] at hv
      simp only [debrid_link_normalize_torrent_status]
      split_ifs <;> first | rfl | omega
    | str s =>
      simp only [debridLinkKnown, decide_eq_false_iff_not] at hv
      exact debrid_link_str_map_default (pyLower s) hv
  · intro s hs
    simp only [premiumizeKnown, decide_eq_false_iff_not] at hs
    simp only [premiumize_normalize_torrent_status, Except.ok.injEq]
    exact premiumize_str_map_default (pyLower s) hs

/-- Witness for C2 amended: concrete unknown inputs normalize to `Error` for
all three adapters, a known Premiumize string normalizes, and a numeric input
to Premiumize raises. -/
theorem normalize_torrent_status_amended_witness :
    alldebrid_normalize_torrent_status (.str "bogus") = .error
    ∧ debrid_link_normalize_torrent_status (.int 99) = .error
    ∧ premiumize_normalize_torrent_status (.str "bogus") = .ok .error
    ∧ (∃ t : TorrentStatus, premiumize_normalize_torrent_status (.str "seeding") = .ok t)
    ∧ premiumize_normalize_torrent_status (.int 5) = .error .attributeError :=
  ⟨normalize_torrent_status_amended.1 (.str "bogus") (by decide),
   normalize_torrent_status_amended.2.1 (.int 99) (by decide),
   normalize_torrent_status_amended.2.2.1 "bogus" (by decide),
   normalize_torrent_status_amended.2.2.2.1 "seeding",
   normalize_torrent_status_amended.2.2.2.2 5⟩

/-! ### Acquire-and-poll loops -/

/-- Python's `max(xs, key=f)`: the first element attaining the maximal key
(`max` keeps the current best on ties, so the earliest maximum wins).
`none` on the empty list (Python raises `ValueError` there; every use site
guards non-emptiness first). -/
def firstMaxBy {α : Type} (f : α → Int) : List α → Option α
  | [] => none
  | x :: xs =>
    match firstMaxBy f xs with
    | none => some x
    | some m => if f m > f x then some m else some x

theorem firstMaxBy_eq_none_iff {α : Type} (f : α → Int) (l : List α) :
    firstMaxBy f l = none ↔ l = [] := by
  constructor
  · intro h
    cases l with
    | nil => rfl
    | cons x xs =>
      exfalso
      unfold firstMaxBy at h
      rcases hx : firstMaxBy f xs with _ | m <;> rw [hx] at h <;>
        simp only [] at h
      · simp at h
      · split at h <;> simp at h
  · rintro rfl; rfl

theorem firstMaxBy_mem {α : Type} {f : α → Int} {l : List α} {m : α}
    (h : firstMaxBy f l = some m) : m ∈ l := by
  induction l generalizing m with
  | nil => simp [firstMaxBy] at h
  | cons x xs ih =>
    unfold firstMaxBy at h
    rcases hx : firstMaxBy f xs with _ | m2 <;> rw [hx] at h <;>
      simp only [] at h
    · simp at h; subst h; exact List.mem_cons_self _ _
    · by_cases hc : f m2 > f x
      · rw [if_pos hc] at h; simp at h; subst h
        exact List.mem_cons_of_mem _ (ih hx)
      · rw [if_neg hc] at h; simp at h; subst h; exact List.mem_cons_self _ _

theorem firstMaxBy_maximal {α : Type} {f : α → Int} {l : List α} {m : α}
    (h : firstMaxBy f l = some m) : ∀ x ∈ l, f x ≤ f m := by
  induction l generalizing m with
  | nil => simp [firstMaxBy] at h
  | cons x xs ih =>
    unfold firstMaxBy at h
    rcases hx : firstMaxBy f xs with _ | m2 <;> rw [hx] at h <;>
      simp only [] at h
    · simp at h; subst h
      intro y hy
      rcases List.mem_cons.mp hy with h1 | h2
      · subst h1; exact le_refl _
      · exact absurd ((firstMaxBy_eq_none_iff f xs).mp hx ▸ h2) (List.not_mem_nil y)
    · by_cases hc : f m2 > f x
      · rw [if_pos hc] at h; simp at h; subst h
        intro y hy
        rcases List.mem_cons.mp hy with h1 | h2
        · subst h1; exact le_of_lt hc
        · exact ih hx y h2
      · rw [if_neg hc] at h; simp at h; subst h
        intro y hy
        rcases List.mem_cons.mp hy with h1 | h2
        · subst h1; exact le_refl _
        · exact le_trans (ih hx y h2) (not_lt.mp hc)

/-- Python truthiness of an optional string (`None` and `""` are falsy). -/
def strOptTruthy (o : Option String) : Bool :=
  match o with
  | none => false
  | some s => decide (s ≠ "")

/-- Python truthiness of an optional integer (`None` and `0` are falsy). -/
def intOptTruthy (o : Option Int) : Bool :=
  match o with
  | none => false
  | some n => decide (n ≠ 0)

/-- One file entry of a Real-Debrid torrent-info response:
`{"id": …, "bytes": …}` (`f["id"]`, `f.get("bytes", 0)`). -/
structure RDFileEntry where
  id : Int
  bytes : Int
  deriving DecidableEq, Repr

/-- A Real-Debrid `get_torrent_info` response as read by the code:
`.get("status")`, `.get("links", [])`, `.get("files", [])`. -/
structure RDTorrentInfo where
  status : Option String
  links : List String
  files : List RDFileEntry
  deriving DecidableEq, Repr

/-- An `unrestrict_link` response: the code reads `.get("download")`. -/
structure UnrestrictResult where
  download : Option String
  deriving DecidableEq, Repr

/-- An `add_magnet` response: the code reads `.get("id")`. -/
structure RDAddResult where
  id : Option String
  deriving DecidableEq, Repr

/-- The remote calls `RealDebridClient.process_torrent_for_content` makes,
modelled as response oracles.  `torrentInfo k` is the response to the `k`-th
`get_torrent_info` call (call 0 happens before the poll loop, calls 1..30
inside it); `.error` models a raised `RealDebridAPIError`, which the outer
`try/except` converts to `None`. -/
structure RDCalls where
  addMagnet : Except Unit RDAddResult
  torrentInfo : Nat → Except Unit RDTorrentInfo
  selectFiles : Except Unit Unit
  unrestrict : String → Except Unit UnrestrictResult

/-- The poll loop of `RealDebridClient.process_torrent_for_content`
(`rd_client.py` lines 249-276): up to `fuel` further attempts starting with
the `k`-th `get_torrent_info` call; `status == "downloaded"` unrestricts the
first link and returns its `download` field, `status in
["error","virus","dead"]` returns `None`, anything else polls again; an
exhausted budget falls through to `return None`. -/
def rd_poll (calls : RDCalls) : Nat → Nat → Option String
  | 0, _ => none
  | fuel + 1, k =>
    match calls.torrentInfo k with
    | .error _ => none
    | .ok ti =>
      if ti.status = some "downloaded" then
        match ti.links with
        | [] => none
        | l :: _ =>
          match calls.unrestrict l with
          | .error _ => none
          | .ok u => u.download
      else if ti.status = some "error" ∨ ti.status = some "virus" ∨ ti.status = some "dead" then
        none
      else rd_poll calls fuel (k + 1)

/-- `RealDebridClient.process_torrent_for_content` (`rd_client.py` lines
206-280): add the magnet, fetch the file list, select files (the largest by
`bytes` when `select_largest`, else all), then poll up to `max_attempts = 30`
times. -/
def rd_process_torrent_for_content (calls : RDCalls) (select_largest : Bool) :
    Option String :=
  match calls.addMagnet with
  | .error _ => none
  | .ok add =>
    if strOptTruthy add.id = false then none
    else
      match calls.torrentInfo 0 with
      | .error _ => none
      | .ok ti =>
        if ti.files = [] then none
        else
          let _file_ids : List Int :=
            if select_largest then ((firstMaxBy (fun f => f.bytes) ti.files).map
              (fun f => f.id)).toList
            else ti.files.map (fun f => f.id)
          match calls.selectFiles with
          | .error _ => none
          | .ok _ => rd_poll calls 30 1

/-- One AllDebrid file entry: the code reads `f.get("n")` and
`f.get("size", 0)`. -/
structure ADFileEntry where
  n : Option String
  size : Int
  deriving DecidableEq, Repr

/-- One AllDebrid link entry: the code reads `link_data.get("filename")` and
`link_data.get("link")`. -/
structure ADLinkEntry where
  filename : Option String
  link : Option String
  deriving DecidableEq, Repr

/-- An AllDebrid magnet info/add response as read by the code: `.get("id")`,
`.get("status")`, `.get("statusCode")`, `.get("links", [])`,
`.get("files", [])`. -/
structure ADMagnetInfo where
  id : Option Int
  status : Option String
  statusCode : Option Int
  links : List ADLinkEntry
  files : List ADFileEntry
  deriving DecidableEq, Repr

/-- The remote calls `AllDebridClient.process_torrent_for_content` makes.
`magnetStatus k` answers the `k`-th in-loop `get_torrent_info` call
(attempts 0..29); `.error` models a raised `AllDebridAPIError`, caught by the
outer `try/except` and converted to `None`. -/
structure ADCalls where
  addMagnet : Except Unit ADMagnetInfo
  magnetStatus : Nat → Except Unit ADMagnetInfo
  unrestrict : Option String → Except Unit UnrestrictResult

/-- The poll loop of `AllDebridClient.process_torrent_for_content`
(`alldebrid.py` lines 257-298).  Ready when `statusCode == 4 or status ==
"Ready"`; then with no links `None`; with `select_largest` and a non-empty
file list, the first link whose `filename` equals the largest file's `n` is
unrestricted; otherwise (or when no link matches) the first link is
unrestricted.  `statusCode in [5, 6] or status in ["Error", "Expired"]`
returns `None`; an exhausted budget falls through to `return None`. -/
def ad_poll (calls : ADCalls) (select_largest : Bool) : Nat → Nat → Option String
  | 0, _ => none
  | fuel + 1, k =>
    match calls.magnetStatus k with
    | .error _ => none
    | .ok mi =>
      if mi.statusCode = some 4 ∨ mi.status = some "Ready" then
        match mi.links with
        | [] => none
        | l0 :: _ =>
          let largestMatch : Option ADLinkEntry :=
            if select_largest then
              match firstMaxBy (fun f => f.size) mi.files with
              | none => none
              | some lf => mi.links.find? (fun ld => ld.filename == lf.n)
            else none
          match largestMatch with
          | some ld =>
            match calls.unrestrict ld.link with
            | .error _ => none
            | .ok u => u.download
          | none =>
            match calls.unrestrict l0.link with
            | .error _ => none
            | .ok u => u.download
      else if (mi.statusCode = some 5 ∨ mi.statusCode = some 6)
          ∨ (mi.status = some "Error" ∨ mi.status = some "Expired") then
        none
      else ad_poll calls select_largest fuel (k + 1)

/-- `AllDebridClient.process_torrent_for_content` (`alldebrid.py` lines
233-302): add the magnet, then poll up to `max_attempts = 30` times.
(`magnet_id = str(magnet_info.get("id"))` is always a non-empty string —
even `str(None)` is `"None"` — so the `if not magnet_id` guard never
fires.) -/
def ad_process_torrent_for_content (calls : ADCalls) (select_largest : Bool) :
    Option String :=
  match calls.addMagnet with
  | .error _ => none
  | .ok _ => ad_poll calls select_largest 30 0

/-- `calls`' `j`-th `get_torrent_info` response is a successfully returned
snapshot whose status is neither the `downloaded` success status nor one of
the terminal failure statuses `error`/`virus`/`dead` of the Real-Debrid poll
loop. -/
def rdNonterminalAt (calls : RDCalls) (j : Nat) : Prop :=
  ∃ ti, calls.torrentInfo j = .ok ti ∧ ti.status ≠ some "downloaded"
    ∧ ti.status ≠ some "error" ∧ ti.status ≠ some "virus" ∧ ti.status ≠ some "dead"

theorem rd_poll_nonterminal (calls : RDCalls) :
    ∀ (fuel k : Nat), (∀ j, k ≤ j → j < k + fuel → rdNonterminalAt calls j) →
      rd_poll calls fuel k = none := by
  intro fuel
  induction fuel with
  | zero => intro k _; rfl
  | succ n ih =>
    intro k h
    obtain ⟨ti, hok, h1, h2, h3, h4⟩ := h k (le_refl k) (by omega)
    unfold rd_poll
    rw [hok]
    simp only []
    rw [if_neg h1, if_neg (by simp [h2, h3, h4])]
    exact ih (k + 1) (fun j hj1 hj2 => h j (by omega) (by omega))

theorem rd_poll_error_now (calls : RDCalls) (fuel k : Nat) (ti : RDTorrentInfo)
    (hok : calls.torrentInfo k = .ok ti) (hst : ti.status = some "error") :
    rd_poll calls (fuel + 1) k = none := by
  unfold rd_poll
  rw [hok]
  simp only []
  rw [if_neg (by simp [hst]), if_pos (Or.inl hst)]

/-- `calls`' `j`-th `magnet/status` response is a successfully returned
snapshot that is neither ready (`statusCode == 4` / `status == "Ready"`) nor
terminal (`statusCode in [5, 6]` / `status in ["Error", "Expired"]`) for the
AllDebrid poll loop. -/
def adNonterminalAt (calls : ADCalls) (j : Nat) : Prop :=
  ∃ mi, calls.magnetStatus j = .ok mi
    ∧ ¬(mi.statusCode = some 4 ∨ mi.status = some "Ready")
    ∧ ¬((mi.statusCode = some 5 ∨ mi.statusCode = some 6)
        ∨ (mi.status = some "Error" ∨ mi.status = some "Expired"))

theorem ad_poll_nonterminal (calls : ADCalls) (sl : Bool) :
    ∀ (fuel k : Nat), (∀ j, k ≤ j → j < k + fuel → adNonterminalAt calls j) →
      ad_poll calls sl fuel k = none := by
  intro fuel
  induction fuel with
  | zero => intro k _; rfl
  | succ n ih =>
    intro k h
    obtain ⟨mi, hok, h1, h2⟩ := h k (le_refl k) (by omega)
    unfold ad_poll
    rw [hok]
    simp only []
    rw [if_neg h1, if_neg h2]
    exact ih (k + 1) (fun j hj1 hj2 => h j (by omega) (by omega))

theorem ad_poll_error_now (calls : ADCalls) (sl : Bool) (fuel k : Nat)
    (mi : ADMagnetInfo) (hok : calls.magnetStatus k = .ok mi)
    (hcode : mi.statusCode = some 5) (hst : mi.status ≠ some "Ready") :
    ad_poll calls sl (fuel + 1) k = none := by
  unfold ad_poll
  rw [hok]
  simp only []
  rw [if_neg (by simp [hcode, hst]), if_pos (Or.inl (Or.inl hcode))]

/-- C3 amended: when the bounded polling budget is exhausted while the
provider still reports a non-terminal status, `process_torrent_for_content`
returns `None` — exactly the same value it returns when the provider reports
a terminal error status.  The two outcomes are *not* distinguishable in the
returned value (they differ only in a log line), and no `TimedOut` status is
produced; this holds for both the Real-Debrid and the AllDebrid flow. -/
theorem acquire_poll_timeout_amended (rdc : RDCalls) (sl : Bool)
    (adc : ADCalls) (asl : Bool) :
    ((∀ j, 1 ≤ j → j ≤ 30 → rdNonterminalAt rdc j) →
      rd_process_torrent_for_content rdc sl = none)
    ∧ (∀ ti, rdc.torrentInfo 1 = .ok ti → ti.status = some "error" →
        rd_process_torrent_for_content rdc sl = none)
    ∧ ((∀ j, j < 30 → adNonterminalAt adc j) →
      ad_process_torrent_for_content adc asl = none)
    ∧ (∀ mi, adc.magnetStatus 0 = .ok mi → mi.statusCode = some 5 →
        mi.status ≠ some "Ready" → ad_process_torrent_for_content adc asl = none) := by
  refine ⟨?_, ?_, ?_, ?_⟩
  · intro h
    unfold rd_process_torrent_for_content
    split
    · rfl
    · split
      · rfl
      · split
        · rfl
        · split
          · rfl
          · split
            · rfl
            · exact rd_poll_nonterminal rdc 30 1
                (fun j hj1 hj2 => h j hj1 (by omega))
  · intro ti hti hst
    unfold rd_process_torrent_for_content
    split
    · rfl
    · split
      · rfl
      · split
        · rfl
        · split
          · rfl
          · split
            · rfl
            · exact rd_poll_error_now rdc 29 1 ti hti hst
  · intro h
    unfold ad_process_torrent_for_content
    split
    · rfl
    · exact ad_poll_nonterminal adc asl 30 0 (fun j hj1 hj2 => h j (by omega))
  · intro mi hmi hcode hst
    unfold ad_process_torrent_for_content
    split
    · rfl
    · exact ad_poll_error_now adc asl 29 0 mi hmi hcode hst

/-- A Real-Debrid snapshot that stays `downloading` forever. -/
def rdDownInfo : RDTorrentInfo :=
  { status := some "downloading", links := [], files := [{ id := 1, bytes := 100 }] }

/-- A Real-Debrid snapshot reporting the terminal `error` status. -/
def rdErrInfo : RDTorrentInfo :=
  { status := some "error", links := [], files := [{ id := 1, bytes := 100 }] }

/-- A provider that reports `downloading` on every poll: the 30-attempt budget
is exhausted. -/
def rdTimeoutCalls : RDCalls :=
  { addMagnet := .ok { id := some "T1" },
    torrentInfo := fun _ => .ok rdDownInfo,
    selectFiles := .ok (),
    unrestrict := fun _ => .error () }

/-- A provider that reports the terminal `error` status on the first poll. -/
def rdErrorCalls : RDCalls :=
  { addMagnet := .ok { id := some "T1" },
    torrentInfo := fun k => if k = 0 then .ok rdDownInfo else .ok rdErrInfo,
    selectFiles := .ok (),
    unrestrict := fun _ => .error () }

/-- Counterexample for C3: the budget-exhausted run and the terminal-error
run of `RealDebridClient.process_torrent_for_content` return the identical
value `None` — there is no distinguishable `TimedOut` outcome. -/
theorem acquire_poll_timeout_counterexample :
    rd_process_torrent_for_content rdTimeoutCalls true = none
    ∧ rd_process_torrent_for_content rdErrorCalls true = none
    ∧ rd_process_torrent_for_content rdTimeoutCalls true
        = rd_process_torrent_for_content rdErrorCalls true :=
  ⟨rfl, rfl, rfl⟩

/-- An AllDebrid snapshot that stays in the non-terminal processing state. -/
def adStuckInfo : ADMagnetInfo :=
  { id := some 1, status := some "Downloading", statusCode := some 1,
    links := [], files := [] }

/-- An AllDebrid snapshot reporting the terminal error code 5. -/
def adErrInfo : ADMagnetInfo :=
  { id := some 1, status := some "Error", statusCode := some 5,
    links := [], files := [] }

def adStuckCalls : ADCalls :=
  { addMagnet := .ok adStuckInfo,
    magnetStatus := fun _ => .ok adStuckInfo,
    unrestrict := fun _ => .error () }

def adErrorCalls : ADCalls :=
  { addMagnet := .ok adStuckInfo,
    magnetStatus := fun _ => .ok adErrInfo,
    unrestrict := fun _ => .error () }

/-- Witness for C3 amended: concrete budget-exhausted and terminal-error runs
of both flows, all returning `None`. -/
theorem acquire_poll_timeout_amended_witness :
    rd_process_torrent_for_content rdTimeoutCalls true = none
    ∧ rd_process_torrent_for_content rdErrorCalls true = none
    ∧ ad_process_torrent_for_content adStuckCalls true = none
    ∧ ad_process_torrent_for_content adErrorCalls true = none :=
  ⟨(acquire_poll_timeout_amended rdTimeoutCalls true adStuckCalls true).1
      (fun _ _ _ => ⟨rdDownInfo, rfl, by decide, by decide, by decide, by decide⟩),
   (acquire_poll_timeout_amended rdErrorCalls true adStuckCalls true).2.1
      rdErrInfo rfl rfl,
   (acquire_poll_timeout_amended rdTimeoutCalls true adStuckCalls true).2.2.1
      (fun _ _ => ⟨adStuckInfo, rfl, by decide, by decide⟩),
   (acquire_poll_timeout_amended rdTimeoutCalls true adErrorCalls true).2.2.2
      adErrInfo rfl rfl (by decide)⟩

/-- One Debrid-Link file entry: the code reads `f.get("name", "")`,
`x.get("size", 0)` and `f.get("downloadUrl")`. -/
structure DLFileEntry where
  name : String
  size : Int
  downloadUrl : Option String
  deriving DecidableEq, Repr

/-- A Debrid-Link `get_torrent_info` response as read by the code:
`.get("status")`, `.get("downloadPercent", 0)`, `.get("files", [])`. -/
structure DLTorrentInfo where
  status : Option Int
  downloadPercent : Int
  files : List DLFileEntry
  deriving DecidableEq, Repr

/-- A Debrid-Link `add_magnet` response: the code reads `.get("id")`. -/
structure DLAddResult where
  id : Option Int
  deriving DecidableEq, Repr

/-- The remote calls `DebridLinkClient.process_torrent_for_content` makes.
`torrentInfo k` answers the `k`-th in-loop `get_torrent_info` call (attempts
0..59); `.error` models a raised `DebridLinkAPIError`, caught by the outer
`try/except` and converted to `None`. -/
structure DLCalls where
  addMagnet : Except Unit DLAddResult
  torrentInfo : Nat → Except Unit DLTorrentInfo

/-- Python `s.endswith(e)`, on the character list: the last `len(e)`
characters of `s` equal `e`. -/
def pyEndsWith (s e : String) : Bool :=
  decide (s.data.drop (s.data.length - e.data.length) = e.data)

/-- The recognized video extensions of
`DebridLinkClient.process_torrent_for_content` (`debrid_link.py` line 271). -/
def dl_video_exts : List String := [".mp4", ".mkv", ".avi", ".mov", ".webm"]

/-- The video-file filter (`debrid_link.py` lines 269-271): keep the files
with a truthy `downloadUrl` whose name ends in a recognized video
extension. -/
def dl_video_filter (files : List DLFileEntry) : List DLFileEntry :=
  files.filter (fun f => strOptTruthy f.downloadUrl
    && dl_video_exts.any (fun e => pyEndsWith f.name e))

/-- `download_url = selected_file.get("downloadUrl"); if download_url: return
download_url; ... return None` (`debrid_link.py` lines 282-288). -/
def dl_url_of (f : DLFileEntry) : Option String :=
  match f.downloadUrl with
  | none => none
  | some url => if url = "" then none else some url

/-- The body of the finished branch (`debrid_link.py` lines 261-288): with no
files `None`; otherwise filter to video files, *fall back to all files when
no video file remains* (`if not video_files: video_files = files`), select
the largest (or the first when `select_largest` is false), and return its
`downloadUrl` if truthy. -/
def dl_ready_select (files : List DLFileEntry) (select_largest : Bool) :
    Option String :=
  if files = [] then none
  else
    let video_files := dl_video_filter files
    let pool := if video_files = [] then files else video_files
    match (if select_largest then firstMaxBy (fun f => f.size) pool else pool.head?) with
    | none => none
    | some f => dl_url_of f

/-- The poll loop of `DebridLinkClient.process_torrent_for_content`
(`debrid_link.py` lines 252-298): finished when `status == 2 or progress >=
100`; `status in [3, 4]` returns `None`; anything else polls again, up to
`max_attempts = 60`; an exhausted budget falls through to `return None`. -/
def dl_poll (calls : DLCalls) (select_largest : Bool) : Nat → Nat → Option String
  | 0, _ => none
  | fuel + 1, k =>
    match calls.torrentInfo k with
    | .error _ => none
    | .ok ti =>
      if ti.status = some 2 ∨ 100 ≤ ti.downloadPercent then
        dl_ready_select ti.files select_largest
      else if ti.status = some 3 ∨ ti.status = some 4 then none
      else dl_poll calls select_largest fuel (k + 1)

/-- `DebridLinkClient.process_torrent_for_content` (`debrid_link.py` lines
228-302): add the magnet (`if not torrent_id: return None`, Python
truthiness), then poll. -/
def dl_process_torrent_for_content (calls : DLCalls) (select_largest : Bool) :
    Option String :=
  match calls.addMagnet with
  | .error _ => none
  | .ok add =>
    if intOptTruthy add.id = false then none
    else dl_poll calls select_largest 60 0

/-- The spec scenario's files: `movie.mkv` 4 GB, `sample.mkv` 50 MB,
`readme.rar` 1 KB, each with a download URL. -/
def movieFile : DLFileEntry :=
  { name := "movie.mkv", size := 4 * 1024 * 1024 * 1024,
    downloadUrl := some "http://dl/movie.mkv" }

def sampleFile : DLFileEntry :=
  { name := "sample.mkv", size := 50 * 1024 * 1024,
    downloadUrl := some "http://dl/sample.mkv" }

def rarFile : DLFileEntry :=
  { name := "readme.rar", size := 1024, downloadUrl := some "http://dl/readme.rar" }

/-- The finished snapshot holding the three scenario files. -/
def dlScenarioInfo : DLTorrentInfo :=
  { status := some 2, downloadPercent := 100,
    files := [movieFile, sampleFile, rarFile] }

def dlScenarioCalls : DLCalls :=
  { addMagnet := .ok { id := some 7 },
    torrentInfo := fun _ => .ok dlScenarioInfo }

/-- A finished snapshot whose only file is the archive `readme.rar`. -/
def dlRarInfo : DLTorrentInfo :=
  { status := some 2, downloadPercent := 100, files := [rarFile] }

/-- A ready torrent whose only file is the archive `readme.rar`. -/
def dlRarCalls : DLCalls :=
  { addMagnet := .ok { id := some 7 },
    torrentInfo := fun _ => .ok dlRarInfo }

/-- Counterexample for C4: a ready torrent with *zero* recognized video files
does not end in a `NoVideoFiles` terminal failure — the code falls back to
all files (`if not video_files: video_files = files`) and happily returns the
archive's download URL. -/
theorem ready_no_video_counterexample :
    dl_video_filter [rarFile] = []
    ∧ dl_process_torrent_for_content dlRarCalls true = some "http://dl/readme.rar" :=
  ⟨rfl, rfl⟩

theorem dl_ready_select_largest (files : List DLFileEntry) (hne : files ≠ []) :
    ∃ f, firstMaxBy (fun g => g.size)
        (if dl_video_filter files = [] then files else dl_video_filter files) = some f
      ∧ f ∈ (if dl_video_filter files = [] then files else dl_video_filter files)
      ∧ (∀ g ∈ (if dl_video_filter files = [] then files else dl_video_filter files),
          g.size ≤ f.size)
      ∧ dl_ready_select files true = dl_url_of f := by
  have hpool : (if dl_video_filter files = [] then files else dl_video_filter files) ≠ [] := by
    split
    · exact hne
    · assumption
  rcases hf : firstMaxBy (fun g => g.size)
      (if dl_video_filter files = [] then files else dl_video_filter files) with _ | f
  · exact absurd ((firstMaxBy_eq_none_iff _ _).mp hf) hpool
  · refine ⟨f, hf, firstMaxBy_mem hf, firstMaxBy_maximal hf, ?_⟩
    unfold dl_ready_select
    rw [if_neg hne]
    show (match firstMaxBy (fun g => g.size)
        (if dl_video_filter files = [] then files else dl_video_filter files) with
      | none => none
      | some x => dl_url_of x) = dl_url_of f
    rw [hf]

/-- C4 amended: when the Debrid-Link flow reaches the finished status it
selects the largest file among those with a truthy `downloadUrl` and a
recognized video extension (`.mp4 .mkv .avi .mov .webm`) and returns that
file's URL; but when zero video files remain after filtering it does *not*
fail with a `NoVideoFiles` outcome — it falls back to all files and returns
the URL of the largest file regardless of extension.  (The Real-Debrid flow
applies no extension filter at all: it selects the largest file by `bytes`
before polling and unrestricts the torrent's first link.) -/
theorem ready_file_selection_amended (calls : DLCalls) (add : DLAddResult)
    (ti : DLTorrentInfo) (hadd : calls.addMagnet = .ok add)
    (hid : intOptTruthy add.id = true) (hinfo : calls.torrentInfo 0 = .ok ti)
    (hready : ti.status = some 2 ∨ 100 ≤ ti.downloadPercent)
    (hfiles : ti.files ≠ []) :
    (dl_video_filter ti.files ≠ [] →
      ∃ f, firstMaxBy (fun g => g.size) (dl_video_filter ti.files) = some f
        ∧ f ∈ dl_video_filter ti.files
        ∧ (∀ g ∈ dl_video_filter ti.files, g.size ≤ f.size)
        ∧ dl_process_torrent_for_content calls true = dl_url_of f)
    ∧ (dl_video_filter ti.files = [] →
      ∃ f, firstMaxBy (fun g => g.size) ti.files = some f
        ∧ f ∈ ti.files
        ∧ (∀ g ∈ ti.files, g.size ≤ f.size)
        ∧ dl_process_torrent_for_content calls true = dl_url_of f) := by
  have hproc : dl_process_torrent_for_content calls true
      = dl_ready_select ti.files true := by
    unfold dl_process_torrent_for_content
    rw [hadd]
    simp only []
    rw [if_neg (by simp [hid])]
    show dl_poll calls true (59 + 1) 0 = _
    unfold dl_poll
    rw [hinfo]
    simp only []
    rw [if_pos hready]
  obtain ⟨f, hf, hmem, hmax, hsel⟩ := dl_ready_select_largest ti.files hfiles
  constructor
  · intro hvf
    rw [if_neg hvf] at hf hmem hmax
    exact ⟨f, hf, hmem, hmax, hproc.trans hsel⟩
  · intro hvf
    rw [if_pos hvf] at hf hmem hmax
    exact ⟨f, hf, hmem, hmax, hproc.trans hsel⟩

/-- Witness for C4 amended: on the spec scenario (`movie.mkv` 4 GB,
`sample.mkv` 50 MB, `readme.rar` 1 KB) the filtered pool is non-empty and
the flow returns the URL of its largest member. -/
theorem ready_file_selection_amended_witness :
    ∃ f, firstMaxBy (fun g => g.size)
        (dl_video_filter [movieFile, sampleFile, rarFile]) = some f
      ∧ f ∈ dl_video_filter [movieFile, sampleFile, rarFile]
      ∧ (∀ g ∈ dl_video_filter [movieFile, sampleFile, rarFile], g.size ≤ f.size)
      ∧ dl_process_torrent_for_content dlScenarioCalls true = dl_url_of f :=
  (ready_file_selection_amended dlScenarioCalls { id := some 7 } dlScenarioInfo
    rfl (by decide) rfl (by decide) (by decide)).1 (by decide)

/-- The scenario outcome pinned down concretely: the selected file is
`movie.mkv`. -/
theorem ready_file_selection_scenario :
    dl_process_torrent_for_content dlScenarioCalls true = some "http://dl/movie.mkv" := rfl

/-! ### Link cache store (`link_cache_manager.py`) -/

/-- An `rd_links` row (`linkarr-backend/app/models/rd_link.py`).  Timestamps
are modelled as integer seconds; `episode_id` is nullable (`NULL` for
movies). -/
structure RDLink where
  id : Int
  rd_torrent_id : Int
  episode_id : Option Int
  rd_file_id : String
  filename : String
  filesize : Option Int
  streaming_url : String
  quality : Option String
  codec : Option String
  is_valid : Bool
  expires_at : Int
  last_accessed : Int
  created_at : Int
  updated_at : Int
  deriving DecidableEq, Repr

/-- An `rd_torrents` row (the fields `LinkCacheManager` reads):
the primary key, the owning media item, the provider-assigned torrent id and
the status string. -/
structure RDTorrentRow where
  id : Int
  media_item_id : Int
  rd_torrent_id : String
  status : String
  deriving DecidableEq, Repr

/-- The committed database state seen by `LinkCacheManager`: the `rd_links`
and `rd_torrents` tables. -/
structure Store where
  links : List RDLink
  torrents : List RDTorrentRow
  deriving DecidableEq, Repr

/-- The Real-Debrid calls `LinkCacheManager.refresh_link` makes, as response
oracles: `get_torrent_info` keyed by the provider torrent id, and
`unrestrict_link`; `.error` models a raised exception, which the `except`
block turns into a rollback plus `return None`. -/
structure CacheClientCalls where
  torrentInfo : String → Except Unit RDTorrentInfo
  unrestrict : String → Except Unit UnrestrictResult

/-- `LINK_EXPIRATION_HOURS = 4` (`link_cache_manager.py` line 32). -/
def LINK_EXPIRATION_HOURS : Int := 4

/-- `REFRESH_THRESHOLD_MINUTES = 30` (`link_cache_manager.py` line 35). -/
def REFRESH_THRESHOLD_MINUTES : Int := 30

/-- Committing the mutation of the ORM object with id `i`: the row is
replaced by its updated value. -/
def replaceLink (links : List RDLink) (i : Int) (l' : RDLink) : List RDLink :=
  links.map (fun x => if x.id = i then l' else x)

/-- `LinkCacheManager.refresh_link` (`link_cache_manager.py` lines 92-149):
look up the parent `RDTorrent`; fetch its provider snapshot; require status
`"downloaded"`; unrestrict the first link; require a truthy new URL; then
overwrite `streaming_url`, set `expires_at = now + 4h`, `is_valid = True`,
`updated_at = now` and commit.  Every failure path (missing torrent,
non-downloaded status, no links, no URL, raised exception) returns `None`
before the mutation lines run, so the store is unchanged there. -/
def refresh_link (cl : CacheClientCalls) (now : Int) (s : Store) (l : RDLink) :
    Option RDLink × Store :=
  match s.torrents.find? (fun t => decide (t.id = l.rd_torrent_id)) with
  | none => (none, s)
  | some t =>
    match cl.torrentInfo t.rd_torrent_id with
    | .error _ => (none, s)
    | .ok ti =>
      if ti.status ≠ some "downloaded" then (none, s)
      else
        match ti.links with
        | [] => (none, s)
        | l0 :: _ =>
          match cl.unrestrict l0 with
          | .error _ => (none, s)
          | .ok u =>
            match u.download with
            | none => (none, s)
            | some url =>
              if url = "" then (none, s)
              else
                let l' :=
                  { l with
                    streaming_url := url,
                    expires_at := now + LINK_EXPIRATION_HOURS * 3600,
                    is_valid := true,
                    updated_at := now }
                (some l', { s with links := replaceLink s.links l.id l' })

/-- Python truthiness of the `episode_id` argument (`if episode_id:`):
`None` and `0` are both falsy. -/
def episodeTruthy (eid : Option Int) : Bool := intOptTruthy eid

/-- The row filter of the `get_valid_link` query (`link_cache_manager.py`
lines 66-75): join `RDLink` to its `RDTorrent`, `media_item_id` matches,
`is_valid == True`, `expires_at > now`, and the episode filter chosen by the
*truthiness* of `episode_id`: truthy ⇒ `episode_id == episode_id`, falsy
(`None` or `0`) ⇒ `episode_id IS NULL`. -/
def eligLink (s : Store) (now mid : Int) (eid : Option Int) (l : RDLink) : Bool :=
  s.torrents.any (fun t => decide (t.id = l.rd_torrent_id)
      && decide (t.media_item_id = mid))
    && l.is_valid && decide (now < l.expires_at)
    && (if episodeTruthy eid then decide (l.episode_id = eid)
        else decide (l.episode_id = none))

/-- `LinkCacheManager.get_valid_link` (`link_cache_manager.py` lines 48-90):
take the newest (`order_by(created_at.desc()).first()`) eligible link; when
its remaining lifetime is under the 30-minute threshold, call `refresh_link`
and return the refreshed record on success, else the original (fail open). -/
def get_valid_link (cl : CacheClientCalls) (now : Int) (s : Store)
    (mid : Int) (eid : Option Int) : Option RDLink × Store :=
  match firstMaxBy (fun l => l.created_at) (s.links.filter (eligLink s now mid eid)) with
  | none => (none, s)
  | some l =>
    if l.expires_at - now < REFRESH_THRESHOLD_MINUTES * 60 then
      match refresh_link cl now s l with
      | (some r, s') => (some r, s')
      | (none, s') => (some l, s')
    else (some l, s)

/-- The row filter of `invalidate_expired_links` (`link_cache_manager.py`
lines 159-164): `is_valid == True and expires_at <= now`. -/
def expiredCond (now : Int) (l : RDLink) : Bool :=
  l.is_valid && decide (l.expires_at ≤ now)

/-- `LinkCacheManager.invalidate_expired_links` (`link_cache_manager.py`
lines 151-181): flip `is_valid = False` on every expired valid link, count
them, and commit once after the loop. -/
def invalidate_expired_links (now : Int) (s : Store) : Nat × Store :=
  let expired := s.links.filter (expiredCond now)
  (expired.length,
   { s with links := s.links.map (fun l =>
      if expiredCond now l then { l with is_valid := false } else l) })

/-- Fault-injection variant of `invalidate_expired_links`: an exception
raised while processing the `k`-th expired link (0-based) reaches the
`except` handler *before* the single `self.db.commit()` that follows the
loop, so `self.db.rollback()` discards every flip and the call returns 0.
With no injected fault this is exactly `invalidate_expired_links`. -/
def invalidate_expired_links_f (failAt : Option Nat) (now : Int) (s : Store) :
    Nat × Store :=
  let expired := s.links.filter (expiredCond now)
  match failAt with
  | some k => if k < expired.length then (0, s) else invalidate_expired_links now s
  | none => invalidate_expired_links now s

/-- The row filter of `refresh_expiring_links` (`link_cache_manager.py`
lines 196-202): valid, expiring within the threshold, not yet expired. -/
def expiringCond (now : Int) (l : RDLink) : Bool :=
  l.is_valid && decide (l.expires_at ≤ now + REFRESH_THRESHOLD_MINUTES * 60)
    && decide (now < l.expires_at)

/-- The loop of `refresh_expiring_links` (`link_cache_manager.py` lines
204-207): call `refresh_link` on each expiring link against the evolving
store (each success is committed inside `refresh_link` before the next item
is attempted), counting successes; failures are skipped. -/
def refresh_expiring_go (cl : CacheClientCalls) (now : Int) :
    List RDLink → Nat × Store → Nat × Store
  | [], acc => acc
  | l :: rest, (c, st) =>
    match refresh_link cl now st l with
    | (some _, st') => refresh_expiring_go cl now rest (c + 1, st')
    | (none, st') => refresh_expiring_go cl now rest (c, st')

/-- `LinkCacheManager.refresh_expiring_links` (`link_cache_manager.py` lines
183-214). -/
def refresh_expiring_links (cl : CacheClientCalls) (now : Int) (s : Store) :
    Nat × Store :=
  refresh_expiring_go cl now (s.links.filter (expiringCond now)) (0, s)

/-- The row filter of `cleanup_old_links` (`link_cache_manager.py` lines
229-234): `is_valid == False and created_at < now - days_old`. -/
def oldCond (now days_old : Int) (l : RDLink) : Bool :=
  (!l.is_valid) && decide (l.created_at < now - days_old * 86400)

/-- `LinkCacheManager.cleanup_old_links` (`link_cache_manager.py` lines
216-251): delete every old invalid link, count them, and commit once after
the loop. -/
def cleanup_old_links (now days_old : Int) (s : Store) : Nat × Store :=
  let old := s.links.filter (oldCond now days_old)
  (old.length, { s with links := s.links.filter (fun l => !(oldCond now days_old l)) })

/-- Fault-injection variant of `cleanup_old_links`, like
`invalidate_expired_links_f`: an exception at the `k`-th old link rolls the
whole batch back (single commit after the loop) and the call returns 0. -/
def cleanup_old_links_f (failAt : Option Nat) (now days_old : Int) (s : Store) :
    Nat × Store :=
  let old := s.links.filter (oldCond now days_old)
  match failAt with
  | some k => if k < old.length then (0, s) else cleanup_old_links now days_old s
  | none => cleanup_old_links now days_old s

theorem refresh_link_cases (cl : CacheClientCalls) (now : Int) (s : Store) (l : RDLink) :
    (∃ r, refresh_link cl now s l = (some r, { s with links := replaceLink s.links l.id r })
      ∧ r.is_valid = true ∧ r.expires_at = now + LINK_EXPIRATION_HOURS * 3600
      ∧ r.episode_id = l.episode_id ∧ r.created_at = l.created_at ∧ r.id = l.id)
    ∨ refresh_link cl now s l = (none, s) := by
  unfold refresh_link
  split
  · right; rfl
  · split
    · right; rfl
    · split
      · right; rfl
      · split
        · right; rfl
        · split
          · right; rfl
          · split
            · right; rfl
            · split
              · right; rfl
              · left; exact ⟨_, rfl, rfl, rfl, rfl, rfl, rfl⟩

/-- C6: whenever `refresh_link` fails and returns `None` — missing parent
torrent, provider status not `downloaded`, no provider links, no new
streaming URL, or a raised exception — the committed store is left entirely
unchanged: the link record keeps every pre-call field value, with no partial
overwrite. -/
theorem refresh_link_failure_frame (cl : CacheClientCalls) (now : Int) (s : Store)
    (l : RDLink) (h : (refresh_link cl now s l).1 = none) :
    (refresh_link cl now s l).2 = s := by
  rcases refresh_link_cases cl now s l with ⟨r, heq, _⟩ | heq
  · rw [heq] at h; simp at h
  · rw [heq]

/-- A client whose every call raises. -/
def failClient : CacheClientCalls :=
  { torrentInfo := fun _ => .error (), unrestrict := fun _ => .error () }

/-- A valid movie link (expires at 10000) owned by torrent 1. -/
def wLink : RDLink :=
  { id := 1, rd_torrent_id := 1, episode_id := none, rd_file_id := "f1",
    filename := "a.mkv", filesize := none, streaming_url := "http://u/1",
    quality := none, codec := none, is_valid := true, expires_at := 10000,
    last_accessed := 0, created_at := 0, updated_at := 0 }

def wTorrent : RDTorrentRow :=
  { id := 1, media_item_id := 1, rd_torrent_id := "RD1", status := "downloaded" }

def wStore : Store := { links := [wLink], torrents := [wTorrent] }

/-- Witness for C6: a refresh whose provider call raises leaves the concrete
store untouched. -/
theorem refresh_link_failure_frame_witness :
    (refresh_link failClient 0 wStore wLink).2 = wStore :=
  refresh_link_failure_frame failClient 0 wStore wLink (by decide)

theorem eligLink_fields {s : Store} {now mid : Int} {eid : Option Int} {l : RDLink}
    (h : eligLink s now mid eid l = true) :
    l.is_valid = true ∧ now < l.expires_at := by
  simp only [eligLink, Bool.and_eq_true, decide_eq_true_iff] at h
  exact ⟨h.1.1.2, h.1.2⟩

theorem eligLink_episode {s : Store} {now mid : Int} {eid : Option Int} {l : RDLink}
    (h : eligLink s now mid eid l = true) :
    l.episode_id ≠ some 0 := by
  simp only [eligLink, Bool.and_eq_true] at h
  have hd := h.2
  split at hd
  · rename_i ht
    rw [decide_eq_true_iff] at hd
    cases heid : eid with
    | none => rw [heid] at ht; simp [episodeTruthy, intOptTruthy] at ht
    | some e =>
      rw [heid] at ht hd
      have he : e ≠ 0 := by
        simp [episodeTruthy, intOptTruthy] at ht
        exact ht
      rw [hd]
      intro hcon
      exact he (Option.some.inj hcon)
  · rw [decide_eq_true_iff] at hd
    rw [hd]
    intro hcon
    cases hcon

theorem get_valid_link_none (cl : CacheClientCalls) (now mid : Int)
    (eid : Option Int) (s : Store)
    (hm : firstMaxBy (fun x => x.created_at) (s.links.filter (eligLink s now mid eid)) = none) :
    get_valid_link cl now s mid eid = (none, s) := by
  unfold get_valid_link
  rw [hm]

theorem get_valid_link_some (cl : CacheClientCalls) (now mid : Int)
    (eid : Option Int) (s : Store) (l : RDLink)
    (hm : firstMaxBy (fun x => x.created_at) (s.links.filter (eligLink s now mid eid)) = some l) :
    get_valid_link cl now s mid eid =
      if l.expires_at - now < REFRESH_THRESHOLD_MINUTES * 60 then
        match refresh_link cl now s l with
        | (some r, s') => (some r, s')
        | (none, s') => (some l, s')
      else (some l, s) := by
  unfold get_valid_link
  rw [hm]

/-- C5: `get_valid_link` returns `None` exactly when no link matches the
query (valid, unexpired, owned by the media item, episode filter); any
returned link is valid and unexpired at lookup time (`expires_at > now`);
and the returned link derives from the newest (maximal `created_at`)
matching link: returned as-is when its remaining lifetime is at least the
30-minute threshold, otherwise a refresh is attempted first and the
refreshed record is returned on success, the original on failure (fail
open). -/
theorem get_valid_link_spec (cl : CacheClientCalls) (now mid : Int)
    (eid : Option Int) (s : Store) :
    (((get_valid_link cl now s mid eid).1 = none)
        ↔ s.links.filter (eligLink s now mid eid) = [])
    ∧ (∀ r, (get_valid_link cl now s mid eid).1 = some r →
        r.is_valid = true ∧ now < r.expires_at)
    ∧ (∀ r, (get_valid_link cl now s mid eid).1 = some r →
        ∃ l, l ∈ s.links ∧ eligLink s now mid eid l = true
          ∧ (∀ l2 ∈ s.links, eligLink s now mid eid l2 = true →
              l2.created_at ≤ l.created_at)
          ∧ ((REFRESH_THRESHOLD_MINUTES * 60 ≤ l.expires_at - now ∧ r = l
                ∧ (get_valid_link cl now s mid eid).2 = s)
             ∨ (l.expires_at - now < REFRESH_THRESHOLD_MINUTES * 60
                ∧ (((refresh_link cl now s l).1 = some r
                      ∧ (get_valid_link cl now s mid eid).2 = (refresh_link cl now s l).2)
                   ∨ ((refresh_link cl now s l).1 = none ∧ r = l
                      ∧ (get_valid_link cl now s mid eid).2 = (refresh_link cl now s l).2))))) := by
  rcases hm : firstMaxBy (fun x => x.created_at) (s.links.filter (eligLink s now mid eid))
    with _ | l
  · have heq := get_valid_link_none cl now mid eid s hm
    refine ⟨⟨fun _ => (firstMaxBy_eq_none_iff _ _).mp hm, fun _ => by rw [heq]⟩, ?_, ?_⟩
    · intro r hr; rw [heq] at hr; simp at hr
    · intro r hr; rw [heq] at hr; simp at hr
  · have heq := get_valid_link_some cl now mid eid s l hm
    have hmem := firstMaxBy_mem hm
    have hfil := List.mem_filter.mp hmem
    have hmax : ∀ l2 ∈ s.links, eligLink s now mid eid l2 = true →
        l2.created_at ≤ l.created_at := by
      intro l2 h2 h3
      exact firstMaxBy_maximal hm l2 (List.mem_filter.mpr ⟨h2, h3⟩)
    have hne : s.links.filter (eligLink s now mid eid) ≠ [] := by
      intro hcon
      exact absurd (hcon ▸ hmem) (List.not_mem_nil l)
    by_cases hth : l.expires_at - now < REFRESH_THRESHOLD_MINUTES * 60
    · rw [if_pos hth] at heq
      rcases refresh_link_cases cl now s l with ⟨r', hreq, hval, hexp, _, _, _⟩ | hreq
      · rw [hreq] at heq
        refine ⟨⟨fun hcon => by rw [heq] at hcon; simp at hcon, fun hcon => absurd hcon hne⟩,
          ?_, ?_⟩
        · intro r hr
          rw [heq] at hr
          simp only [Option.some.injEq] at hr
          subst hr
          refine ⟨hval, ?_⟩
          rw [hexp]
          unfold LINK_EXPIRATION_HOURS
          omega
        · intro r hr
          rw [heq] at hr
          simp only [Option.some.injEq] at hr
          subst hr
          exact ⟨l, hfil.1, hfil.2, hmax,
            Or.inr ⟨hth, Or.inl ⟨by rw [hreq], by rw [heq, hreq]⟩⟩⟩
      · rw [hreq] at heq
        refine ⟨⟨fun hcon => by rw [heq] at hcon; simp at hcon, fun hcon => absurd hcon hne⟩,
          ?_, ?_⟩
        · intro r hr
          rw [heq] at hr
          simp only [Option.some.injEq] at hr
          subst hr
          exact eligLink_fields hfil.2
        · intro r hr
          rw [heq] at hr
          simp only [Option.some.injEq] at hr
          subst hr
          exact ⟨l, hfil.1, hfil.2, hmax,
            Or.inr ⟨hth, Or.inr ⟨by rw [hreq], rfl, by rw [heq, hreq]⟩⟩⟩
    · rw [if_neg hth] at heq
      refine ⟨⟨fun hcon => by rw [heq] at hcon; simp at hcon, fun hcon => absurd hcon hne⟩,
        ?_, ?_⟩
      · intro r hr
        rw [heq] at hr
        simp only [Option.some.injEq] at hr
        subst hr
        exact eligLink_fields hfil.2
      · intro r hr
        rw [heq] at hr
        simp only [Option.some.injEq] at hr
        subst hr
        exact ⟨l, hfil.1, hfil.2, hmax, Or.inl ⟨not_lt.mp hth, rfl, by rw [heq]⟩⟩

/-- Witness for C5: on a concrete store holding one far-from-expiry valid
movie link, the returned link is valid and unexpired. -/
theorem get_valid_link_spec_witness :
    wLink.is_valid = true ∧ (0 : Int) < wLink.expires_at :=
  (get_valid_link_spec failClient 0 1 none wStore).2.1 wLink (by decide)

/-- C10: `get_valid_link` with `episode_id = 0` behaves identically to
`episode_id = None` — the `if episode_id:` truthiness check sends both to the
`episode_id IS NULL` (movie) filter — and consequently a link stored with
`episode_id = 0` can never be returned by any query. -/
theorem get_valid_link_episode_zero (cl : CacheClientCalls) (now mid : Int) (s : Store) :
    get_valid_link cl now s mid (some 0) = get_valid_link cl now s mid none
    ∧ (∀ eid r, (get_valid_link cl now s mid eid).1 = some r → r.episode_id ≠ some 0) := by
  constructor
  · rfl
  · intro eid r hr
    rcases hm : firstMaxBy (fun x => x.created_at) (s.links.filter (eligLink s now mid eid))
      with _ | l
    · rw [get_valid_link_none cl now mid eid s hm] at hr
      simp at hr
    · have helig := (List.mem_filter.mp (firstMaxBy_mem hm)).2
      have heq := get_valid_link_some cl now mid eid s l hm
      by_cases hth : l.expires_at - now < REFRESH_THRESHOLD_MINUTES * 60
      · rw [if_pos hth] at heq
        rcases refresh_link_cases cl now s l with ⟨r', hreq, _, _, hepi, _, _⟩ | hreq
        · rw [hreq] at heq
          rw [heq] at hr
          simp only [Option.some.injEq] at hr
          subst hr
          rw [hepi]
          exact eligLink_episode helig
        · rw [hreq] at heq
          rw [heq] at hr
          simp only [Option.some.injEq] at hr
          subst hr
          exact eligLink_episode helig
      · rw [if_neg hth] at heq
        rw [heq] at hr
        simp only [Option.some.injEq] at hr
        subst hr
        exact eligLink_episode helig

/-- Witness for C10: on the concrete store the link returned by the
movie-form query carries no `episode_id = 0`. -/
theorem get_valid_link_episode_zero_witness : wLink.episode_id ≠ some 0 :=
  (get_valid_link_episode_zero failClient 0 1 wStore).2 none wLink (by decide)

theorem map_eq_self_of_id {α : Type} (f : α → α) (l : List α)
    (h : ∀ x ∈ l, f x = x) : l.map f = l := by
  induction l with
  | nil => rfl
  | cons x xs ih =>
    simp only [List.map_cons, h x (List.mem_cons_self x xs),
      ih (fun y hy => h y (List.mem_cons_of_mem x hy))]

/-- C7: `invalidate_expired_links` flips `is_valid` to `false` on exactly the
valid links with `expires_at <= now` and returns their count; run twice with
no intervening writes and no new expirations between the calls, the second
call invalidates zero links, returns 0, and leaves the store unchanged. -/
theorem invalidate_expired_idempotent (now1 now2 : Int) (s : Store)
    (h1 : now1 ≤ now2)
    (h2 : ∀ l ∈ s.links, l.expires_at ≤ now2 → l.expires_at ≤ now1) :
    ((invalidate_expired_links now1 s).1 = (s.links.filter (expiredCond now1)).length)
    ∧ (∀ l ∈ s.links, expiredCond now1 l = true →
        { l with is_valid := false } ∈ (invalidate_expired_links now1 s).2.links)
    ∧ (∀ l ∈ s.links, expiredCond now1 l = false →
        l ∈ (invalidate_expired_links now1 s).2.links)
    ∧ ((invalidate_expired_links now1 s).2.torrents = s.torrents)
    ∧ ((invalidate_expired_links now2 (invalidate_expired_links now1 s).2).1 = 0)
    ∧ ((invalidate_expired_links now2 (invalidate_expired_links now1 s).2).2
        = (invalidate_expired_links now1 s).2) := by
  have hmap : (invalidate_expired_links now1 s).2.links
      = s.links.map (fun l =>
          if expiredCond now1 l then { l with is_valid := false } else l) := rfl
  have hnone : ∀ x ∈ (invalidate_expired_links now1 s).2.links,
      expiredCond now2 x = false := by
    intro x hx
    rw [hmap] at hx
    obtain ⟨l0, hl0, hfx⟩ := List.mem_map.mp hx
    by_cases hc : expiredCond now1 l0 = true
    · rw [if_pos hc] at hfx
      subst hfx
      simp [expiredCond]
    · rw [if_neg hc] at hfx
      subst hfx
      cases hEx : expiredCond now2 l0 with
      | false => rfl
      | true =>
        exfalso
        simp only [expiredCond, Bool.and_eq_true, decide_eq_true_iff] at hEx
        exact hc (by
          simp only [expiredCond, Bool.and_eq_true, decide_eq_true_iff]
          exact ⟨hEx.1, h2 l0 hl0 hEx.2⟩)
  refine ⟨rfl, ?_, ?_, rfl, ?_, ?_⟩
  · intro l hl hc
    rw [hmap]
    exact List.mem_map.mpr ⟨l, hl, by simp [hc]⟩
  · intro l hl hc
    rw [hmap]
    exact List.mem_map.mpr ⟨l, hl, by simp [hc]⟩
  · show (((invalidate_expired_links now1 s).2.links.filter (expiredCond now2)).length = 0)
    rw [List.length_eq_zero, List.filter_eq_nil_iff]
    intro a ha
    simp [hnone a ha]
  · have hself : (invalidate_expired_links now1 s).2.links.map (fun l =>
        if expiredCond now2 l then { l with is_valid := false } else l)
        = (invalidate_expired_links now1 s).2.links :=
      map_eq_self_of_id _ _ (fun x hx => by rw [if_neg (by simp [hnone x hx])])
    show ({ (invalidate_expired_links now1 s).2 with
        links := (invalidate_expired_links now1 s).2.links.map (fun l =>
          if expiredCond now2 l then { l with is_valid := false } else l) }
        = (invalidate_expired_links now1 s).2)
    rw [hself]

/-- Witness for C7: running the sweep twice at the same instant on the
concrete store invalidates nothing the second time. -/
theorem invalidate_expired_idempotent_witness :
    (invalidate_expired_links 20000 (invalidate_expired_links 20000 wStore).2).1 = 0 :=
  (invalidate_expired_idempotent 20000 20000 wStore (by decide)
    (fun _ _ h => h)).2.2.2.2.1

/-- A valid link already expired at `now = 100`. -/
def cexL0 : RDLink :=
  { id := 1, rd_torrent_id := 1, episode_id := none, rd_file_id := "f1",
    filename := "a.mkv", filesize := none, streaming_url := "http://u/1",
    quality := none, codec := none, is_valid := true, expires_at := 50,
    last_accessed := 0, created_at := 0, updated_at := 0 }

/-- A second valid link already expired at `now = 100`. -/
def cexL1 : RDLink :=
  { id := 2, rd_torrent_id := 1, episode_id := none, rd_file_id := "f2",
    filename := "b.mkv", filesize := none, streaming_url := "http://u/2",
    quality := none, codec := none, is_valid := true, expires_at := 60,
    last_accessed := 0, created_at := 1, updated_at := 0 }

def cexStore : Store := { links := [cexL0, cexL1], torrents := [wTorrent] }

/-- Counterexample for C8: `invalidate_expired_links` commits once after the
whole loop, not per item.  With two expired links and a failure while
processing the second item (index 1), the flip already applied to the first
item is rolled back too: the call returns `(0, unchanged store)` and both
links are still valid afterwards. -/
theorem batch_commit_counterexample :
    (cexStore.links.filter (expiredCond 100)).length = 2
    ∧ invalidate_expired_links_f (some 1) 100 cexStore = (0, cexStore)
    ∧ ((invalidate_expired_links_f (some 1) 100 cexStore).2.links.map
        (fun l => l.is_valid)) = [true, true] :=
  ⟨rfl, rfl, rfl⟩

/-- C8 amended: only `refresh_expiring_links` commits per item (each
successful refresh is committed inside `refresh_link` before the next item
is attempted, so a failure at one item leaves the earlier items' updates
committed and the batch continues); `invalidate_expired_links` and
`cleanup_old_links` instead commit once after the whole loop, so a failure
while processing any item rolls back the changes of items 1..k-1 as well and
the call returns 0. -/
theorem batch_commit_amended (cl : CacheClientCalls) (now days_old : Int)
    (s : Store) (k : Nat) (p rest : List RDLink) (bad : RDLink) :
    (k < (s.links.filter (expiredCond now)).length →
      invalidate_expired_links_f (some k) now s = (0, s))
    ∧ (k < (s.links.filter (oldCond now days_old)).length →
      cleanup_old_links_f (some k) now days_old s = (0, s))
    ∧ (s.links.filter (expiringCond now) = p ++ bad :: rest →
      (refresh_link cl now (refresh_expiring_go cl now p (0, s)).2 bad).1 = none →
      refresh_expiring_links cl now s
        = refresh_expiring_go cl now rest (refresh_expiring_go cl now p (0, s))) := by
  refine ⟨?_, ?_, ?_⟩
  · intro hk
    show (if k < (s.links.filter (expiredCond now)).length then ((0 : Nat), s)
      else invalidate_expired_links now s) = (0, s)
    rw [if_pos hk]
  · intro hk
    show (if k < (s.links.filter (oldCond now days_old)).length then ((0 : Nat), s)
      else cleanup_old_links now days_old s) = (0, s)
    rw [if_pos hk]
  · intro hfil hfail
    have hcons : ∀ (x : RDLink) (rest2 : List RDLink) (c : Nat) (st : Store),
        refresh_expiring_go cl now (x :: rest2) (c, st)
          = match refresh_link cl now st x with
            | (some _, st') => refresh_expiring_go cl now rest2 (c + 1, st')
            | (none, st') => refresh_expiring_go cl now rest2 (c, st') :=
      fun _ _ _ _ => rfl
    have happ : ∀ (l1 l2 : List RDLink) (acc : Nat × Store),
        refresh_expiring_go cl now (l1 ++ l2) acc
          = refresh_expiring_go cl now l2 (refresh_expiring_go cl now l1 acc) := by
      intro l1
      induction l1 with
      | nil => intro l2 acc; rfl
      | cons x xs ih =>
        intro l2 acc
        rcases acc with ⟨c, st⟩
        rw [List.cons_append, hcons, hcons]
        rcases hr : refresh_link cl now st x with ⟨ro, st'⟩
        cases ro <;> simp only [] <;> exact ih l2 _
    rw [refresh_expiring_links, hfil, happ]
    rcases hacc : refresh_expiring_go cl now p (0, s) with ⟨c0, st0⟩
    rw [hacc] at hfail
    simp only [] at hfail
    rw [hcons]
    rcases hr : refresh_link cl now st0 bad with ⟨ro, st'⟩
    rw [hr] at hfail
    simp only [] at hfail
    subst hfail
    simp only []
    have hframe : st' = st0 := by
      rcases refresh_link_cases cl now st0 bad with ⟨r, heq, _⟩ | heq
      · rw [heq] at hr
        exact absurd (congrArg Prod.fst hr) (by simp)
      · rw [heq] at hr
        exact (congrArg Prod.snd hr).symm
    rw [hframe]

/-- An invalid link old enough to be cleaned up at `now = 100`. -/
def cexOld : RDLink :=
  { id := 3, rd_torrent_id := 1, episode_id := none, rd_file_id := "f3",
    filename := "c.mkv", filesize := none, streaming_url := "http://u/3",
    quality := none, codec := none, is_valid := false, expires_at := 0,
    last_accessed := 0, created_at := 0, updated_at := 0 }

def cexOldStore : Store := { links := [cexOld], torrents := [wTorrent] }

/-- A valid link expiring one second after `now = 100` (inside the 30-minute
refresh window). -/
def cexExp : RDLink :=
  { id := 4, rd_torrent_id := 1, episode_id := none, rd_file_id := "f4",
    filename := "d.mkv", filesize := none, streaming_url := "http://u/4",
    quality := none, codec := none, is_valid := true, expires_at := 101,
    last_accessed := 0, created_at := 0, updated_at := 0 }

def cexExpStore : Store := { links := [cexExp], torrents := [wTorrent] }

/-- Witness for C8 amended: concrete single-commit rollbacks for the two
batch sweeps and a per-item-committed refresh batch whose only item fails. -/
theorem batch_commit_amended_witness :
    invalidate_expired_links_f (some 0) 100 cexStore = (0, cexStore)
    ∧ cleanup_old_links_f (some 0) 100 0 cexOldStore = (0, cexOldStore)
    ∧ refresh_expiring_links failClient 100 cexExpStore
        = refresh_expiring_go failClient 100 []
            (refresh_expiring_go failClient 100 [] (0, cexExpStore)) :=
  ⟨(batch_commit_amended failClient 100 0 cexStore 0 [] [] cexExp).1 (by decide),
   (batch_commit_amended failClient 100 0 cexOldStore 0 [] [] cexExp).2.1 (by decide),
   (batch_commit_amended failClient 100 0 cexExpStore 0 [] [] cexExp).2.2
     (by decide) (by decide)⟩

end Bridgarr
